import Mathlib

/-!
Verification of the core of the ED-tools neutron-heatmap repository
(`systems.py`, class `Systems`): catalog construction by star-type
filtering, the zoom selection state machine, and the render hand-off.

The embedding is shallow: a pandas DataFrame row becomes a `Record`,
the DataFrame becomes a `List Record` (pandas `query` preserves row
order and multiplicity, so a list is the faithful carrier), and the
`Systems` object becomes a structure holding the two row collections
`_all_systems` and `_selected_systems`.  Logging only emits text and
never influences the data path, so it is not modelled.
-/

namespace EDTools

/--
One row of the normalized table produced by `pd.json_normalize`.
`mainStar` is the value of the record's `mainStar` field, or `none`
when the source object lacks that field (after normalization the cell
holds NaN, which compares unequal to every string).  `x` and `z` are
the flattened `coords.x` / `coords.z` galactic coordinates.
-/
structure Record where
  mainStar : Option String
  x : Int
  z : Int
deriving DecidableEq, Repr

/--
The row predicate of `normalized_data.query("mainStar == 'Neutron Star'")`:
a row passes iff its `mainStar` cell equals the literal string
`Neutron Star` (a NaN cell, `none` here, never passes).
-/
def neutronQuery (r : Record) : Bool :=
  r.mainStar == some "Neutron Star"

/--
Whether the normalized table has a `mainStar` column at all:
`pd.json_normalize` creates the column iff at least one input object
carries the field.  When the column is absent, `query("mainStar == ...")`
raises `UndefinedVariableError` instead of returning an empty result.
-/
def mainStarColumnExists (json_data : List Record) : Bool :=
  json_data.any fun r => r.mainStar.isSome

/-- The state held by a `Systems` object: `_all_systems` and
`_selected_systems`. -/
structure Systems where
  all_systems : List Record
  selected_systems : List Record
deriving DecidableEq, Repr

/--
`Systems.__init__`: normalize the document, keep only rows whose
`mainStar` equals `Neutron Star`, and select everything by default.
The `Except` branch mirrors the `UndefinedVariableError` that pandas
`query` raises when no input object carries the `mainStar` field, so
the normalized table has no such column.
-/
def Systems.init (json_data : List Record) : Except String Systems :=
  if mainStarColumnExists json_data then
    let all := json_data.filter neutronQuery
    .ok { all_systems := all, selected_systems := all }
  else
    .error "UndefinedVariableError: name mainStar is not defined"

/-- `Systems.zoom_out`: re-select all systems. -/
def Systems.zoom_out (s : Systems) : Systems :=
  { s with selected_systems := s.all_systems }

/--
`Systems.zoom_in`: derive the window bounds by pointwise min/max of the
two corners and re-filter `_all_systems` by the four chained `query`
calls, each a strict comparison on one bound.
-/
def Systems.zoom_in (s : Systems) (coord_0 coord_1 : Int × Int) : Systems :=
  let min_x := min coord_0.1 coord_1.1
  let max_x := max coord_0.1 coord_1.1
  let min_z := min coord_0.2 coord_1.2
  let max_z := max coord_0.2 coord_1.2
  { s with
    selected_systems :=
      ((((s.all_systems.filter fun r => decide (min_x < r.x)).filter
          fun r => decide (r.x < max_x)).filter
          fun r => decide (min_z < r.z)).filter
          fun r => decide (r.z < max_z)) }

/-- The figure built by `px.density_heatmap(df, x="coords.x", y="coords.z",
nbinsx=1000, nbinsy=1000)`: the (x, z) point sequence plus the two bin
counts. -/
structure Figure where
  points : List (Int × Int)
  nbinsx : Nat
  nbinsy : Nat
deriving DecidableEq, Repr

/-- `px.density_heatmap` on the selected rows with the given bin counts. -/
def density_heatmap (rows : List Record) (nbx nby : Nat) : Figure :=
  { points := rows.map fun r => (r.x, r.z), nbinsx := nbx, nbinsy := nby }

/-- What a render call does with its figure: `.show()` opens a browser
viewer, `.write_html(filename)` writes the artifact to a file. -/
inductive RenderEffect where
  | shown (fig : Figure)
  | written (fig : Figure) (filename : String)
deriving DecidableEq, Repr

/-- `Systems.display`: render the current selection with the hard-coded
1000 by 1000 bins and show it; the state is returned unchanged (the
method assigns to no attribute). -/
def Systems.display (s : Systems) : Systems × RenderEffect :=
  (s, .shown (density_heatmap s.selected_systems 1000 1000))

/-- `Systems.save`: render the current selection with the hard-coded
1000 by 1000 bins and write it to `filename`; the state is returned
unchanged. -/
def Systems.save (s : Systems) (filename : String) : Systems × RenderEffect :=
  (s, .written (density_heatmap s.selected_systems 1000 1000) filename)

/-- The operations a front end can invoke on a constructed `Systems`
object. -/
inductive Op where
  | zoom_in (coord_0 coord_1 : Int × Int)
  | zoom_out
  | display
  | save (filename : String)
deriving DecidableEq, Repr

/-- State transition of one front-end operation. -/
def applyOp (s : Systems) : Op → Systems
  | .zoom_in c0 c1 => s.zoom_in c0 c1
  | .zoom_out => s.zoom_out
  | .display => (s.display).1
  | .save f => (s.save f).1

/-- State after a sequence of front-end operations. -/
def applyOps (s : Systems) (ops : List Op) : Systems :=
  ops.foldl applyOp s

/-- Sample record: the neutron-star system at the origin from the spec
example. -/
def nsRec : Record := { mainStar := some "Neutron Star", x := 0, z := 0 }

/-- Sample record: the neutron-star system at (10, 10) from the spec
example. -/
def nsRec2 : Record := { mainStar := some "Neutron Star", x := 10, z := 10 }

/-- Sample record: the G-type system at (5, 5) from the spec example. -/
def gRec : Record := { mainStar := some "G", x := 5, z := 5 }

/-- Sample record with no `mainStar` field. -/
def noStarRec : Record := { mainStar := none, x := 1, z := 2 }

/-- The three-record sample document from the spec example. -/
def sampleDoc : List Record := [nsRec, nsRec2, gRec]

/-- The `Systems` state that construction from `sampleDoc` yields. -/
def sampleSystems : Systems :=
  { all_systems := [nsRec, nsRec2], selected_systems := [nsRec, nsRec2] }

/-! ## Helper lemmas -/

theorem applyOp_all_systems (s : Systems) (op : Op) :
    (applyOp s op).all_systems = s.all_systems := by
  cases op <;> rfl

theorem applyOps_all_systems (s : Systems) (ops : List Op) :
    (applyOps s ops).all_systems = s.all_systems := by
  induction ops generalizing s with
  | nil => rfl
  | cons op t ih =>
    show (applyOps (applyOp s op) t).all_systems = s.all_systems
    rw [ih, applyOp_all_systems]

theorem filter_window_eq (l : List Record) (a b c e : Int) :
    ((((l.filter fun r => decide (a < r.x)).filter fun r => decide (r.x < b)).filter
        fun r => decide (c < r.z)).filter fun r => decide (r.z < e))
      = l.filter fun r => decide (a < r.x ∧ r.x < b ∧ c < r.z ∧ r.z < e) := by
  simp only [List.filter_filter]
  refine List.filter_congr fun r hr => ?_
  by_cases h1 : a < r.x <;> by_cases h2 : r.x < b <;>
    by_cases h3 : c < r.z <;> by_cases h4 : r.z < e <;>
    simp [h1, h2, h3, h4]

theorem init_ok_shape (d : List Record) (s : Systems)
    (h : Systems.init d = .ok s) :
    s = { all_systems := d.filter neutronQuery,
          selected_systems := d.filter neutronQuery } := by
  unfold Systems.init at h
  split at h
  · exact (Except.ok.injEq _ _).mp h |>.symm
  · exact absurd h (by simp)

/-! ## Claim theorems -/

/-- C1: whenever `Systems.__init__` succeeds, the constructed Catalog
contains exactly the input records whose `mainStar` field equals the
literal string `Neutron Star` (exact, case-sensitive equality), and the
kept records form a sublist of the source document, so they appear in
insertion order. -/
theorem catalog_is_exact_neutron_filter (d : List Record) (s : Systems)
    (h : Systems.init d = .ok s) :
    s.all_systems = d.filter (fun r => decide (r.mainStar = some "Neutron Star"))
    ∧ (∀ r : Record, r ∈ s.all_systems ↔ r ∈ d ∧ r.mainStar = some "Neutron Star")
    ∧ s.all_systems.Sublist d := by
  have hshape := init_ok_shape d s h
  have hq : ∀ r : Record, neutronQuery r = decide (r.mainStar = some "Neutron Star") := by
    intro r
    rw [neutronQuery, Bool.eq_iff_iff]
    simp
  have hall : s.all_systems = d.filter (fun r => decide (r.mainStar = some "Neutron Star")) := by
    rw [hshape]
    exact List.filter_congr fun r _ => hq r
  refine ⟨hall, fun r => ?_, hall ▸ List.filter_sublist d⟩
  rw [hall, List.mem_filter, decide_eq_true_eq]

/-- C1 witness: on the spec's three-record sample document,
construction succeeds and the Catalog is the two neutron-star records
in document order. -/
theorem catalog_is_exact_neutron_filter_witness :
    sampleSystems.all_systems
        = sampleDoc.filter (fun r => decide (r.mainStar = some "Neutron Star"))
    ∧ (∀ r : Record, r ∈ sampleSystems.all_systems ↔
        r ∈ sampleDoc ∧ r.mainStar = some "Neutron Star")
    ∧ sampleSystems.all_systems.Sublist sampleDoc :=
  catalog_is_exact_neutron_filter sampleDoc sampleSystems rfl

/-- C2: `zoom_in` replaces the Selection with exactly the Catalog
records strictly inside the window spanned by the two corners, and
every selected record is strictly off all four bounds, so boundary
records are excluded. -/
theorem zoom_in_selects_strict_window (s : Systems) (c0 c1 : Int × Int) :
    (s.zoom_in c0 c1).selected_systems
      = s.all_systems.filter (fun r =>
          decide (min c0.1 c1.1 < r.x ∧ r.x < max c0.1 c1.1
            ∧ min c0.2 c1.2 < r.z ∧ r.z < max c0.2 c1.2))
    ∧ ∀ r ∈ (s.zoom_in c0 c1).selected_systems,
        r.x ≠ min c0.1 c1.1 ∧ r.x ≠ max c0.1 c1.1
          ∧ r.z ≠ min c0.2 c1.2 ∧ r.z ≠ max c0.2 c1.2 := by
  have hsel : (s.zoom_in c0 c1).selected_systems
      = s.all_systems.filter (fun r =>
          decide (min c0.1 c1.1 < r.x ∧ r.x < max c0.1 c1.1
            ∧ min c0.2 c1.2 < r.z ∧ r.z < max c0.2 c1.2)) := by
    show ((((s.all_systems.filter _).filter _).filter _).filter _) = _
    exact filter_window_eq s.all_systems _ _ _ _
  refine ⟨hsel, fun r hr => ?_⟩
  rw [hsel, List.mem_filter, decide_eq_true_eq] at hr
  obtain ⟨-, h1, h2, h3, h4⟩ := hr
  exact ⟨ne_of_gt h1, ne_of_lt h2, ne_of_gt h3, ne_of_lt h4⟩

/-- C2 witness: zooming the sample Catalog to the window (1,1)-(11,11)
keeps the record at (10,10), which lies strictly off every bound. -/
theorem zoom_in_selects_strict_window_witness :
    nsRec2.x ≠ min 1 11 ∧ nsRec2.x ≠ max 1 11
      ∧ nsRec2.z ≠ min 1 11 ∧ nsRec2.z ≠ max 1 11 :=
  (zoom_in_selects_strict_window sampleSystems (1, 1) (11, 11)).2 nsRec2 (by decide)

/-- C3: `zoom_in` gives the same resulting state whichever order the
two corners are supplied in. -/
theorem zoom_in_corner_order_irrelevant (s : Systems) (c0 c1 : Int × Int) :
    s.zoom_in c0 c1 = s.zoom_in c1 c0 := by
  unfold Systems.zoom_in
  rw [min_comm c0.1 c1.1, max_comm c0.1 c1.1, min_comm c0.2 c1.2, max_comm c0.2 c1.2]

/-- C4: `zoom_in` with both corners equal succeeds and yields an empty
Selection, because the strict bounds collapse. -/
theorem zoom_in_degenerate_empty (s : Systems) (c : Int × Int) :
    (s.zoom_in c c).selected_systems = [] := by
  have hsel : (s.zoom_in c c).selected_systems
      = s.all_systems.filter (fun r =>
          decide (min c.1 c.1 < r.x ∧ r.x < max c.1 c.1
            ∧ min c.2 c.2 < r.z ∧ r.z < max c.2 c.2)) := by
    show ((((s.all_systems.filter _).filter _).filter _).filter _) = _
    exact filter_window_eq s.all_systems _ _ _ _
  rw [hsel, List.filter_eq_nil_iff]
  intro r _
  simp only [min_self, max_self, decide_eq_true_eq, not_and]
  intro h1 h2
  exact absurd (h1.trans h2) (lt_irrefl _)

/-- C5: from any state reachable from a constructed `Systems` object,
`zoom_out` selects the full Catalog, and a second `zoom_out` changes
nothing further. -/
theorem zoom_out_selects_full_catalog (d : List Record) (s : Systems) (ops : List Op)
    (_h : Systems.init d = .ok s) :
    ((applyOps s ops).zoom_out).selected_systems = s.all_systems
    ∧ ((applyOps s ops).zoom_out).zoom_out = (applyOps s ops).zoom_out := by
  refine ⟨?_, rfl⟩
  show (applyOps s ops).all_systems = s.all_systems
  exact applyOps_all_systems s ops

/-- C5 witness: after constructing from the sample document and zooming
in, `zoom_out` restores the full Catalog and is idempotent. -/
theorem zoom_out_selects_full_catalog_witness :
    ((applyOps sampleSystems [Op.zoom_in (1, 1) (11, 11)]).zoom_out).selected_systems
        = sampleSystems.all_systems
    ∧ ((applyOps sampleSystems [Op.zoom_in (1, 1) (11, 11)]).zoom_out).zoom_out
        = (applyOps sampleSystems [Op.zoom_in (1, 1) (11, 11)]).zoom_out :=
  zoom_out_selects_full_catalog sampleDoc sampleSystems [Op.zoom_in (1, 1) (11, 11)] rfl


/-- C6: the Selection is always derived from the full Catalog, never
from the previous Selection: right after construction it equals the
full Catalog, and in any reachable state two consecutive `zoom_in`
calls leave exactly the state the second call alone would leave. -/
theorem selection_derived_from_catalog (d : List Record) (s : Systems)
    (h : Systems.init d = .ok s) :
    s.selected_systems = s.all_systems
    ∧ ∀ (ops : List Op) (c0 c1 c2 c3 : Int × Int),
        ((applyOps s ops).zoom_in c0 c1).zoom_in c2 c3
          = (applyOps s ops).zoom_in c2 c3 := by
  refine ⟨?_, fun ops c0 c1 c2 c3 => rfl⟩
  rw [init_ok_shape d s h]

/-- C6 witness: on the sample Catalog the initial Selection is the full
Catalog, and zooming to (0,0)-(3,3) before zooming to (1,1)-(11,11)
gives the same state as the second zoom alone. -/
theorem selection_derived_from_catalog_witness :
    sampleSystems.selected_systems = sampleSystems.all_systems
    ∧ ((applyOps sampleSystems []).zoom_in (0, 0) (3, 3)).zoom_in (1, 1) (11, 11)
        = (applyOps sampleSystems []).zoom_in (1, 1) (11, 11) :=
  ⟨(selection_derived_from_catalog sampleDoc sampleSystems rfl).1,
   (selection_derived_from_catalog sampleDoc sampleSystems rfl).2
     [] (0, 0) (3, 3) (1, 1) (11, 11)⟩

/-- C7: the full Catalog is immutable after construction: any sequence
of `zoom_in`, `zoom_out`, `display` and `save` calls leaves
`_all_systems` (records and their order) exactly as construction
produced it. -/
theorem catalog_immutable_after_construction (d : List Record) (s : Systems)
    (ops : List Op) (_h : Systems.init d = .ok s) :
    (applyOps s ops).all_systems = s.all_systems :=
  applyOps_all_systems s ops

/-- C7 witness: on the sample Catalog, a zoom-in, display, save and
zoom-out sequence leaves `_all_systems` untouched. -/
theorem catalog_immutable_after_construction_witness :
    (applyOps sampleSystems
        [Op.zoom_in (1, 1) (11, 11), Op.display, Op.save "out.html", Op.zoom_out]).all_systems
      = sampleSystems.all_systems :=
  catalog_immutable_after_construction sampleDoc sampleSystems
    [Op.zoom_in (1, 1) (11, 11), Op.display, Op.save "out.html", Op.zoom_out] rfl

/-- C8 counterexample: a document whose only record lacks the
`mainStar` field makes construction fail with the pandas
undefined-variable error (the normalized table has no `mainStar`
column), instead of silently excluding the record. -/
theorem missing_star_field_fatal_counterexample :
    Systems.init [noStarRec]
      = .error "UndefinedVariableError: name mainStar is not defined" := rfl

/-- C8 amended: when at least one record of the document carries the
`mainStar` field, construction succeeds and any record lacking the
field is treated as non-matching and silently excluded from the
filtered Catalog. -/
theorem missing_star_field_excluded (d : List Record) (r : Record)
    (hcol : mainStarColumnExists d = true) (hr : r.mainStar = none) :
    Systems.init d = .ok { all_systems := d.filter neutronQuery,
                           selected_systems := d.filter neutronQuery }
    ∧ r ∉ d.filter neutronQuery := by
  constructor
  · unfold Systems.init
    rw [if_pos hcol]
  · intro hmem
    have hq := (List.mem_filter.mp hmem).2
    rw [neutronQuery, hr] at hq
    exact absurd hq (by simp)

/-- C8 amended witness: in a document holding a G-type record and a
record without a `mainStar` field, construction succeeds and the
field-less record is excluded. -/
theorem missing_star_field_excluded_witness :
    Systems.init [gRec, noStarRec]
        = .ok { all_systems := [gRec, noStarRec].filter neutronQuery,
                selected_systems := [gRec, noStarRec].filter neutronQuery }
    ∧ noStarRec ∉ [gRec, noStarRec].filter neutronQuery :=
  missing_star_field_excluded [gRec, noStarRec] noStarRec rfl rfl

/-- C9: `display` and `save` both hand the current Selection's (x, z)
coordinates to the renderer with exactly 1000 bins on each axis, and
they emit the same figure, differing only in the presentation (shown
interactively versus written to the file). -/
theorem render_handoff_thousand_bins (s : Systems) (filename : String) :
    (s.display).2 = RenderEffect.shown (density_heatmap s.selected_systems 1000 1000)
    ∧ (s.save filename).2
        = RenderEffect.written (density_heatmap s.selected_systems 1000 1000) filename
    ∧ (density_heatmap s.selected_systems 1000 1000).points
        = s.selected_systems.map (fun r => (r.x, r.z))
    ∧ (density_heatmap s.selected_systems 1000 1000).nbinsx = 1000
    ∧ (density_heatmap s.selected_systems 1000 1000).nbinsy = 1000 :=
  ⟨rfl, rfl, rfl, rfl, rfl⟩

/-- C10: `display` and `save` are read-only: both leave the current
Selection and the full Catalog exactly as they were. -/
theorem display_save_read_only (s : Systems) (filename : String) :
    (s.display).1.selected_systems = s.selected_systems
    ∧ (s.display).1.all_systems = s.all_systems
    ∧ (s.save filename).1.selected_systems = s.selected_systems
    ∧ (s.save filename).1.all_systems = s.all_systems :=
  ⟨rfl, rfl, rfl, rfl⟩

end EDTools
